import Mathlib

/-
  Verification development for the repository file
  src/demonstrations/spsa.py (a PennyLane demonstration module).

  The module body consists of a single raw string literal (the module
  docstring, an SPSA tutorial) followed only by comments.  We embed:
  - the docstring itself, line by line, exactly as it appears between the
    opening r""" and the closing """ delimiters (a raw string, so every
    backslash is literal);
  - a small operational model of CPython module execution, rich enough to
    state what importing this module does and does not do;
  - the quantities described by the docstring: the SPSA gradient
    estimator and its evaluation points, and the parameter-shift
    evaluation points, with their evaluation counts.
-/

def spsaDocLines : List String := [
  ".. _spsa:",
  "",
  "Optimization using SPSA",
  "=======================",
  "",
  "PennyLane allows computing quantum gradients using  parameter-shift rules.",
  "",
  "For quantum circuits that have multiple free parameters, using the",
  "parameter-shift rule to compute quantum gradients involves computing the",
  "partial derivatives of the quantum function w.r.t. each free parameter. These",
  "partial derivatives are then used to apply the product rule when computing the",
  "quantum gradient (`see parameter-shift rules",
  "<https://pennylane.ai/qml/glossary/parameter_shift.html>`_). For qubit",
  "operations that are generated by one of the Pauli matrices, each partial",
  "derivative computation will involve two quantum circuit evaluations with a",
  "positive and a negative shift in the parameter values.",
  "",
  "As in such cases there would be two circuit evaluation for each free parameter,",
  "the number of overall quantum circuit executions for computing a quantum",
  "gradient scales linearly with the number of free parameters: :math:`O(k)` with",
  ":math:`k` being the number of free parameters. This scaling can be very costly",
  "for optimization tasks where many free pramaeters are considered in the quantum",
  "circuit. For the overall optimization this scaling gives :math:`O(k*n)` quantum",
  "circuit evaluations with :math:`n` being the number of optimization steps taken.",
  "",
  "There are, however, certain optimization techniques that are gradient-free and",
  "hence offer othen approach analytically computing the gradients of quantum",
  "circuits.",
  "",
  "One of such techniques is called Simultaneous perturbation stochastic",
  "approximation (SPSA), an optimization method that involves approximating the",
  "gradient of the cost function at each iteration step. This technique involves",
  "only two quantum circuit executions per iteration step, regardless of the",
  "number of free parameters. Therefore the overall number of circuit executions",
  "would be :math:`O(n')` where :math:`n'` is the number of optimization steps taken when",
  "using SPSA. This technique was also found to be robust against noise, making it",
  "a great optimization method in the NISQ era.",
  "",
  "Let's have a look at the details of how exactly this technique works.",
  "",
  "Simultaneous perturbation stochastic approximation (SPSA)",
  "---------------------------------------------------------",
  "",
  "SPSA is a general method for minimizing differentiable multivariate functions",
  "mostly tailored towards those functions for which evaluating the gradient is",
  "not available.",
  "",
  "SPSA provides a stochastic method for approximating the gradient of a",
  "multivariate differentiable cost function without having to evaluate the",
  "gradient of the function. To approximate the gradient, the cost function is",
  "evaluated twice using perturbed parameter vectors: every component of the",
  "original parameter vector is simultaneously shifted with a randomly generated",
  "value. This is in contrast to finite-differences methods where for each",
  "evaluation only one component of the parameter vector is shifted.",
  "",
  "Similar to gradient-based approaches such as gradient descent, SPSA offers an",
  "iterative optimization algorithm. We consider a differentiable cost function",
  ":math:`L(\\theta)` where :math:`\\theta` is a :math:`p-dimensional` vector and where the",
  "optimization problem can be translated into  finding a :math:`\\theta*` such that",
  ":math:`\\frac\x7b\\partial L\x7d\x7b\\partial u\x7d = 0`.  It is assumed that measurements of",
  ":math:`L(\\theta)` are available at various values of :math:`\\theta`.",
  "",
  "This is exactly the problem that we'd consider when optimizing quantum",
  "functions!",
  "",
  ".. figure:: ../demonstrations/spsa/spsa_opt.png",
  "    :align: center",
  "    :width: 60%",
  "",
  "    ..",
  "",
  "    A schematic of the search paths used by gradient descent with",
  "    parameter-shift and SPSA in a low-noise setting.",
  "    Image source: [#spall_overview]_.",
  "",
  "Just like with gradient-based methods, we'd start with a :math:`\\hat\x7b\\theta\x7d_\x7b0\x7d`",
  "initial parameter vector. After :math:`k` iterations, the :math:`k+1.` parameter iterates",
  "can be obtained as",
  "",
  ".. math:: \\hat\x7b\\theta\x7d_\x7bk+1\x7d = \\hat\x7b\\theta\x7d_\x7bk\x7d - a_\x7bk\x7d\\hat\x7bg\x7d_\x7bk\x7d(\\hat\x7b\\theta\x7d_\x7bk\x7d)",
  "",
  "where :math:`\\hat\x7bg\x7d_\x7bk\x7d` is the estimate of the gradient :math:`g(u) = \\frac\x7b",
  "\\partial L\x7d\x7b\\partial \\theta\x7d` at the iterate :math:`\\hat\x7b\\theta\x7d_\x7bk\x7d` based on",
  "prior measurements of the cost function and :math:`a_\x7bk\x7d` is a numeric",
  "coefficient.",
  "",
  "As previously mentioned, SPSA further takes into account the noisiness of the",
  "result obtained when measuring function :math:`L`. Therefore, let's consider the",
  "function :math:`y(\\theta)=L(\\theta) + noise`.",
  "",
  "Using :math:`y`, the estimated gradient at each iteration step is expressed as",
  "",
  ".. math:: \\hat\x7bg\x7d_\x7bki\x7d (\\hat\x7b\\theta\x7d_\x7bk\x7d) = \\frac\x7by(\\hat\x7b\\theta\x7d_\x7bk\x7d +c_\x7bk\x7d\\Delta_\x7bk\x7d)",
  "    - y(\\hat\x7b\\theta\x7d_\x7bk\x7d -c_\x7bk\x7d\\Delta_\x7bk\x7d)\x7d\x7b2c_\x7bk\x7d\\Delta_\x7bki\x7d\x7d",
  "",
  "where :math:`c_\x7bk\x7d` is a positive number and :math:`\\Delta_\x7bk\x7d = (\\Delta_\x7bk_1\x7d,",
  "\\Delta_\x7bk_2\x7d, ..., \\Delta_\x7bk_p\x7d)^\x7bT\x7d` is the perturbation vector.  The",
  "stochasticity of the technique comes from the fact that for each iteration step",
  ":math:`k` the components of the :math:`\\Delta_\x7bk\x7d` perturbation vector are randomly",
  "generated using a zero-mean distribution. In most cases, the Bernoulli",
  "distribution is used.",
  ""
]

/-- The module docstring of src/demonstrations/spsa.py: the content of the
raw string literal spanning lines 1-103 of the file (each element of
spsaDocLines is one source line; the literal ends with a final newline
before the closing delimiter).  Literal braces are written \x7b and \x7d. -/
def spsa_doc : String := String.intercalate ("\n") spsaDocLines ++ "\n"

/-! ## An operational model of CPython module execution

The module body of src/demonstrations/spsa.py is a single statement: the
expression statement consisting of the raw string literal above (the
comment block in lines 106-113 is not a statement).  To state what import
does *not* do, the statement language also has the statement forms the
module could have contained but does not: assignments, function and class
definitions, environment reads, file and network I/O, and raise. -/

/-- A Python runtime value (as much structure as the claims need). -/
inductive PyValue where
  | str (s : String)
  | int (n : Int)
  | pyNone
deriving DecidableEq, Repr

/-- A module-level Python statement. -/
inductive PyStmt where
  /-- An expression statement that is a string literal (evaluates the
  literal and discards it; binds nothing). -/
  | exprStr (s : String)
  /-- `x = v`: binds a module-level variable. -/
  | assign (x : String) (v : PyValue)
  /-- `def f(...): ...`: binds a function object. -/
  | defFun (f : String)
  /-- `class C: ...`: binds a class object. -/
  | defClass (c : String)
  /-- `x = os.environ[v]`: reads an environment variable. -/
  | readEnv (x v : String)
  /-- `open(p, "w").write(c)`: writes a file. -/
  | writeFile (p c : String)
  /-- A network request to a URL. -/
  | netRequest (u : String)
  /-- `raise Exception(msg)`. -/
  | raiseExc (msg : String)
deriving DecidableEq, Repr

/-- The external world an executing module can observe or change:
environment variables, the file system, and the network. -/
structure PyEnv where
  envVars : List (String × String)
  fileSys : List (String × String)
  netLog : List String
deriving DecidableEq, Repr

/-- An observable side effect of executing a statement. -/
inductive Effect where
  | envRead (v : String)
  | fileWrite (p : String)
  | netSend (u : String)
deriving DecidableEq, Repr

/-- A raised Python exception. -/
inductive PyErr where
  | exc (msg : String)
  | keyError (v : String)
deriving DecidableEq, Repr

/-- Module-level bindings (the module namespace, `__doc__` apart). -/
abbrev Scope : Type := List (String × PyValue)

/-- Execute one statement: thread the scope and the external world and
record the effects, or raise. -/
def execStmt : PyStmt → Scope → PyEnv → Except PyErr (Scope × PyEnv × List Effect)
  | .exprStr _, sc, env => .ok (sc, env, [])
  | .assign x v, sc, env => .ok (sc ++ [(x, v)], env, [])
  | .defFun f, sc, env => .ok (sc ++ [(f, .pyNone)], env, [])
  | .defClass c, sc, env => .ok (sc ++ [(c, .pyNone)], env, [])
  | .readEnv x v, sc, env =>
      match env.envVars.lookup v with
      | some s => .ok (sc ++ [(x, .str s)], env, [.envRead v])
      | none => .error (.keyError v)
  | .writeFile p c, sc, env =>
      .ok (sc, { env with fileSys := env.fileSys ++ [(p, c)] }, [.fileWrite p])
  | .netRequest u, sc, env =>
      .ok (sc, { env with netLog := env.netLog ++ [u] }, [.netSend u])
  | .raiseExc msg, _, _ => .error (.exc msg)

/-- Execute a module body in order, accumulating effects. -/
def execBody : List PyStmt → Scope → PyEnv → Except PyErr (Scope × PyEnv × List Effect)
  | [], sc, env => .ok (sc, env, [])
  | st :: rest, sc, env =>
      match execStmt st sc env with
      | .ok (sc', env', effs) =>
          match execBody rest sc' env' with
          | .ok (sc'', env'', effs') => .ok (sc'', env'', effs ++ effs')
          | .error e => .error e
      | .error e => .error e

/-- CPython binds `__doc__` to the module's leading string literal, and to
`None` when the first statement is not a string literal. -/
def moduleDocOf : List PyStmt → Option String
  | .exprStr s :: _ => some s
  | _ => none

/-- The module object resulting from a successful import. -/
structure PyModule where
  doc : Option String
  bindings : Scope

/-- Import a module with the given body: run the body from an empty
namespace and package the result. -/
def importModule (body : List PyStmt) (env : PyEnv) :
    Except PyErr (PyModule × PyEnv × List Effect) :=
  match execBody body [] env with
  | .ok (sc, env', effs) => .ok ({ doc := moduleDocOf body, bindings := sc }, env', effs)
  | .error e => .error e

/-- The body of src/demonstrations/spsa.py: one statement, the docstring
expression (lines 1-103); lines 104-113 are blank lines and comments. -/
def spsaModuleBody : List PyStmt := [.exprStr spsa_doc]

/-- The module object produced by a successful import, when one is. -/
def importedModule (body : List PyStmt) (env : PyEnv) : Option PyModule :=
  (importModule body env).toOption.map (fun r => r.1)

/-! ## The quantities described by the docstring -/

/-- The two cost-function evaluation points of one SPSA iteration step
(docstring lines 91-94): θ_k + c_k Δ_k and θ_k − c_k Δ_k.  The whole
parameter vector is perturbed simultaneously, so the list does not depend
on any dimension index. -/
def spsaEvalPoints {p : ℕ} (θ : Fin p → ℚ) (c : ℚ) (Δ : Fin p → ℚ) :
    List (Fin p → ℚ) :=
  [fun j => θ j + c * Δ j, fun j => θ j - c * Δ j]

/-- The denominator 2 c_k Δ_ki of the SPSA gradient estimator
(docstring lines 93-94). -/
def ghatDenom {p : ℕ} (c : ℚ) (Δ : Fin p → ℚ) (i : Fin p) : ℚ :=
  2 * c * Δ i

/-- The SPSA gradient estimate of docstring lines 93-94:
ĝ_ki(θ_k) = (y(θ_k + c_k Δ_k) − y(θ_k − c_k Δ_k)) / (2 c_k Δ_ki),
where y is the measured (noisy) cost function. -/
def ghat {p : ℕ} (y : (Fin p → ℚ) → ℚ) (θ : Fin p → ℚ) (c : ℚ)
    (Δ : Fin p → ℚ) (i : Fin p) : ℚ :=
  (y (fun j => θ j + c * Δ j) - y (fun j => θ j - c * Δ j)) / ghatDenom c Δ i

/-- Cost-function evaluations of one SPSA iteration step
(docstring lines 32-34: "only two quantum circuit executions per
iteration step, regardless of the number of free parameters"). -/
def spsaStepEvals : ℕ := 2

/-- Cost-function evaluations of an SPSA optimization run of n' steps
(docstring lines 34-36). -/
def spsaTotalEvals (nSteps : ℕ) : ℕ := spsaStepEvals * nSteps

/-- The two circuit evaluation points for the partial derivative with
respect to parameter i under the parameter-shift rule (docstring lines
13-16): a positive and a negative shift s in that one parameter. -/
def paramShiftPoints {k : ℕ} (θ : Fin k → ℚ) (s : ℚ) (i : Fin k) :
    List (Fin k → ℚ) :=
  [fun j => if j = i then θ j + s else θ j,
   fun j => if j = i then θ j - s else θ j]

/-- All circuit evaluation points of one full parameter-shift gradient:
the two shifted circuits for each of the k free parameters
(docstring lines 18-21). -/
def paramShiftGradPoints {k : ℕ} (θ : Fin k → ℚ) (s : ℚ) :
    List (Fin k → ℚ) :=
  (List.finRange k).flatMap (paramShiftPoints θ s)

/-- Circuit evaluations of one full parameter-shift gradient with k free
parameters (docstring lines 18-21). -/
def paramShiftStepEvals (k : ℕ) : ℕ := 2 * k

/-- Circuit evaluations of a parameter-shift optimization of n steps
(docstring lines 23-24). -/
def paramShiftTotalEvals (k n : ℕ) : ℕ := paramShiftStepEvals k * n

/-! ## The figure directive's image path -/

/-- Modelled from the spec: the repository's documentation image assets
are not among the provided source files; the spec's testable-properties
section names "the referenced image path resolves" as the editorial check
for the figure directive, so the repository layout relevant to that check
is modelled here: the document at demonstrations/spsa.py and the image it
references at demonstrations/spsa/spsa_opt.png, each as a list of path
segments. -/
def repoFiles : List (List String) :=
  [["demonstrations", "spsa.py"],
   ["demonstrations", "spsa", "spsa_opt.png"]]

/-- The directory holding the document, as path segments. -/
def docDirSegments : List String := ["demonstrations"]

/-- The image path of the figure directive on docstring line 66, as path
segments. -/
def figureSegments : List String :=
  ["..", "demonstrations", "spsa", "spsa_opt.png"]

/-- The image path of the figure directive on docstring line 66. -/
def figureImagePath : String := String.intercalate ("/") figureSegments

/-- Resolve a relative path against a base directory: ".." removes the
last base segment, any other segment is appended. -/
def resolveRel (base : List String) (rel : List String) : List String :=
  rel.foldl (fun acc seg => if seg = ".." then acc.dropLast else acc ++ [seg]) base

/-! ## Helper lemmas about String.intercalate -/

/-- The accumulator of String.intercalate.go is a prefix of its result. -/
theorem intercalate_go_split (s : String) :
    ∀ (as : List String) (acc : String),
      ∃ t, String.intercalate.go acc s as = acc ++ t := by
  intro as
  induction as with
  | nil => intro acc; exact ⟨"", (String.append_empty acc).symm⟩
  | cons a as ih =>
      intro acc
      obtain ⟨t, ht⟩ := ih (acc ++ s ++ a)
      refine ⟨s ++ (a ++ t), ?_⟩
      show String.intercalate.go (acc ++ s ++ a) s as = _
      rw [ht]
      simp only [String.append_assoc]

/-- Any member of the list splits String.intercalate.go's result. -/
theorem intercalate_go_mem_split (s x : String) :
    ∀ (as : List String) (acc : String), x ∈ as →
      ∃ p q, String.intercalate.go acc s as = p ++ x ++ q := by
  intro as
  induction as with
  | nil => intro acc h; cases h
  | cons a as ih =>
      intro acc h
      rcases List.mem_cons.mp h with rfl | h'
      · obtain ⟨t, ht⟩ := intercalate_go_split s as (acc ++ s ++ x)
        refine ⟨acc ++ s, t, ?_⟩
        show String.intercalate.go (acc ++ s ++ x) s as = _
        rw [ht]
      · exact ih (acc ++ s ++ a) h'

/-- Any member of the list splits String.intercalate's result. -/
theorem mem_intercalate_split (s x : String) (l : List String) (h : x ∈ l) :
    ∃ p q, String.intercalate s l = p ++ x ++ q := by
  cases l with
  | nil => cases h
  | cons a as =>
      rcases List.mem_cons.mp h with rfl | h'
      · obtain ⟨t, ht⟩ := intercalate_go_split s as x
        refine ⟨"", t, ?_⟩
        show String.intercalate.go x s as = _
        rw [ht, String.empty_append]
      · obtain ⟨p, q, hpq⟩ := intercalate_go_mem_split s x as a h'
        exact ⟨p, q, hpq⟩

/-! ## The claims -/

/-- C1: importing src/demonstrations/spsa.py defines no classes, functions
or module-level variables and performs no computation with an observable
effect: for every external world the import succeeds, the resulting module
namespace is empty, its `__doc__` is the docstring literal, and the world
and effect trace show nothing happened. -/
theorem import_spsa_binds_only_doc (env : PyEnv) :
    importModule spsaModuleBody env =
      Except.ok (⟨some spsa_doc, []⟩, env, []) := rfl

/-- C5: importing src/demonstrations/spsa.py never raises: on every
external world, execution of the module body succeeds. -/
theorem import_spsa_no_exception (env : PyEnv) :
    ∃ r, importModule spsaModuleBody env = Except.ok r := ⟨_, rfl⟩

/-- C6: importing src/demonstrations/spsa.py reads no environment
variables and performs no file or network I/O: the external world after
the import is the world before it, and the effect trace is empty; only
the new module object is produced. -/
theorem import_spsa_leaves_world_unchanged (env : PyEnv) :
    ∃ m, importModule spsaModuleBody env = Except.ok (m, env, []) := ⟨_, rfl⟩

/-- C10: module execution is deterministic and input-independent: any two
imports under any two external worlds produce the same module object, and
in particular the same `__doc__` string, the docstring literal. -/
theorem import_spsa_deterministic (env₁ env₂ : PyEnv) :
    importedModule spsaModuleBody env₁ = importedModule spsaModuleBody env₂ ∧
    (importedModule spsaModuleBody env₁).map PyModule.doc
      = some (some spsa_doc) := ⟨rfl, rfl⟩

/-- C2: the SPSA gradient estimate is computed from exactly two
evaluations of the measured cost function y, at θ_k + c_k Δ_k and
θ_k − c_k Δ_k, independent of the dimension p: the evaluation-point list
has length 2 whatever p is, any two cost functions agreeing on those two
points give the same estimate for every component, and a run of n steps
uses 2 * n evaluations, O(n) in the step count. -/
theorem spsa_two_evals_per_step {p : ℕ} (θ : Fin p → ℚ) (c : ℚ)
    (Δ : Fin p → ℚ) (n : ℕ) (y₁ y₂ : (Fin p → ℚ) → ℚ)
    (h : ∀ v ∈ spsaEvalPoints θ c Δ, y₁ v = y₂ v) :
    (spsaEvalPoints θ c Δ).length = 2 ∧
    spsaTotalEvals n = 2 * n ∧
    ghat y₁ θ c Δ = ghat y₂ θ c Δ := by
  refine ⟨rfl, rfl, ?_⟩
  have h₁ := h (fun j => θ j + c * Δ j) (by simp [spsaEvalPoints])
  have h₂ := h (fun j => θ j - c * Δ j) (by simp [spsaEvalPoints])
  funext i
  simp only [ghat, h₁, h₂]

/-- Witness for C2 at p = 1, θ = 0, c = 1, Δ = 1, n = 3. -/
theorem spsa_two_evals_per_step_witness :
    (spsaEvalPoints (fun _ : Fin 1 => (0 : ℚ)) 1 (fun _ => 1)).length = 2 ∧
    spsaTotalEvals 3 = 2 * 3 ∧
    ghat (fun v => v 0) (fun _ : Fin 1 => (0 : ℚ)) 1 (fun _ => 1)
      = ghat (fun v => v 0) (fun _ : Fin 1 => (0 : ℚ)) 1 (fun _ => 1) :=
  spsa_two_evals_per_step (fun _ => 0) 1 (fun _ => 1) 3 (fun v => v 0)
    (fun v => v 0) (fun _ _ => rfl)

/-- C3: the denominator 2 c_k Δ_ki of the SPSA gradient estimator is
nonzero when c_k is positive and the component Δ_ki, drawn from the
Bernoulli distribution over \x7b−1, +1\x7d, is one of those two nonzero
values. -/
theorem ghatDenom_nonzero {p : ℕ} (c : ℚ) (Δ : Fin p → ℚ) (i : Fin p)
    (hc : 0 < c) (hB : Δ i = 1 ∨ Δ i = -1) :
    ghatDenom c Δ i ≠ 0 := by
  have hΔ : Δ i ≠ 0 := by rcases hB with h | h <;> rw [h] <;> norm_num
  unfold ghatDenom
  exact mul_ne_zero (mul_ne_zero two_ne_zero (ne_of_gt hc)) hΔ

/-- Witness for C3 at p = 1, c = 1, Δ = 1. -/
theorem ghatDenom_nonzero_witness :
    0 < (1 : ℚ) ∧
    ((fun _ : Fin 1 => (1 : ℚ)) 0 = 1 ∨ (fun _ : Fin 1 => (1 : ℚ)) 0 = -1) ∧
    ghatDenom 1 (fun _ : Fin 1 => (1 : ℚ)) 0 ≠ 0 :=
  ⟨by norm_num, Or.inl rfl,
    ghatDenom_nonzero 1 (fun _ => 1) 0 (by norm_num) (Or.inl rfl)⟩

/-- C4: under the parameter-shift rule each of the k free parameters
costs exactly two circuit evaluations (one positive and one negative
shift), the full gradient costs 2 * k, and an optimization of n steps
costs 2 * k * n circuit evaluations, O(k * n). -/
theorem paramShift_two_per_parameter {k : ℕ} (θ : Fin k → ℚ) (s : ℚ)
    (n : ℕ) :
    (∀ i, (paramShiftPoints θ s i).length = 2) ∧
    (paramShiftGradPoints θ s).length = paramShiftStepEvals k ∧
    paramShiftStepEvals k = 2 * k ∧
    paramShiftTotalEvals k n = 2 * k * n := by
  refine ⟨fun _ => rfl, ?_, rfl, ?_⟩
  · unfold paramShiftGradPoints paramShiftStepEvals
    rw [List.length_flatMap]
    have h : List.map (List.length ∘ paramShiftPoints θ s) (List.finRange k)
        = List.replicate k 2 := by
      rw [show (List.length ∘ paramShiftPoints θ s) = fun _ : Fin k => 2 from rfl]
      rw [List.map_const', List.length_finRange]
    rw [h, List.sum_replicate, smul_eq_mul, Nat.mul_comm]
  · unfold paramShiftTotalEvals paramShiftStepEvals
    ring

/-- C8: for more than one free parameter, the per-step evaluation count of
SPSA (2) is strictly below that of parameter-shift gradient descent (2k),
and the gap 2k − 2 is strictly increasing in k. -/
theorem spsa_cheaper_than_paramShift (k j : ℕ) (hk : 1 < k) (hkj : k < j) :
    spsaStepEvals < paramShiftStepEvals k ∧
    paramShiftStepEvals k - spsaStepEvals = 2 * k - 2 ∧
    paramShiftStepEvals k - spsaStepEvals
      < paramShiftStepEvals j - spsaStepEvals := by
  unfold spsaStepEvals paramShiftStepEvals
  omega

/-- Witness for C8 at k = 2, j = 3. -/
theorem spsa_cheaper_than_paramShift_witness :
    1 < 2 ∧ 2 < 3 ∧
    (spsaStepEvals < paramShiftStepEvals 2 ∧
     paramShiftStepEvals 2 - spsaStepEvals = 2 * 2 - 2 ∧
     paramShiftStepEvals 2 - spsaStepEvals
       < paramShiftStepEvals 3 - spsaStepEvals) :=
  ⟨by decide, by decide, spsa_cheaper_than_paramShift 2 3 (by decide) (by decide)⟩

/-- C7: the figure directive on docstring line 66 references the image
path ../demonstrations/spsa/spsa_opt.png, and that path, resolved against
the document's directory, is a file of the (spec-modelled) repository
layout. -/
theorem figure_image_path_resolves :
    spsaDocLines[65]? = some (".. figure:: " ++ figureImagePath) ∧
    resolveRel docDirSegments figureSegments
      = ["demonstrations", "spsa", "spsa_opt.png"] ∧
    resolveRel docDirSegments figureSegments ∈ repoFiles := by
  refine ⟨by decide, rfl, by decide⟩

/-- C9: the docstring is a raw string, so the backslashes of the math
markup survive in `__doc__` verbatim: `__doc__` is spsa_doc, spsa_doc
contains the substring ":math:`L(\theta)`", and that substring holds an
actual backslash character right before "theta". -/
theorem doc_preserves_backslashes :
    moduleDocOf spsaModuleBody = some spsa_doc ∧
    (∃ pre post : String, spsa_doc = pre ++ ":math:`L(\\theta)`" ++ post) ∧
    (":math:`L(\\theta)`" : String).data =
      [':', 'm', 'a', 't', 'h', ':', '`', 'L', '(', '\\',
       't', 'h', 'e', 't', 'a', ')', '`'] := by
  refine ⟨rfl, ?_, rfl⟩
  have hmem : (":math:`L(\\theta)`" ++
      " where :math:`\\theta` is a :math:`p-dimensional` vector and where the")
      ∈ spsaDocLines := by decide
  obtain ⟨p, q, hpq⟩ := mem_intercalate_split ("\n") _ spsaDocLines hmem
  refine ⟨p,
    " where :math:`\\theta` is a :math:`p-dimensional` vector and where the"
      ++ (q ++ "\n"), ?_⟩
  unfold spsa_doc
  rw [hpq]
  simp only [String.append_assoc]
